import Mathlib

/-!
Verification of the hikma-engine Python inference workers
(`src/python/embed_server.py`, `src/python/llm_rag.py`, `src/python/embed.py`)
against their natural-language specification.

The workers are shallowly embedded: JSON values are an inductive type,
Python floats are modelled by rationals, the opaque model computation
(torch / transformers) is an explicit `Backend` parameter, printing to
stdout becomes returned response values, and `sys.exit` codes become
returned naturals.  Exceptions are modelled by `Except String`, the
string being Python's `str(e)`.
-/

/-- JSON values as produced by Python's `json.loads`.  Python ints and
floats are modelled together by rationals; `obj` keeps the key/value
pairs in source order (lookups take the last binding, as `json.loads`
keeps the last duplicate key). -/
inductive Json where
  | null : Json
  | bool : Bool → Json
  | num : ℚ → Json
  | str : String → Json
  | arr : List Json → Json
  | obj : List (String × Json) → Json

namespace Json

/-- Python truthiness (`bool(x)`) of a JSON value: `None`, `False`, `0`,
`""`, `[]` and `\x7b\x7d` are falsy, everything else truthy. -/
def truthy : Json → Bool
  | .null => false
  | .bool b => b
  | .num q => q ≠ 0
  | .str s => s ≠ ""
  | .arr xs => !xs.isEmpty
  | .obj kvs => !kvs.isEmpty

/-- Lookup in an association list keeping the LAST binding for a key,
matching the semantics of a Python dict built by `json.loads`. -/
def lookupLast (key : String) : List (String × Json) → Option Json
  | [] => none
  | (k, v) :: rest =>
      match lookupLast key rest with
      | some w => some w
      | none => if k = key then some v else none

/-- Python's `d.get(key)` on a dict: the value, or `None` when absent. -/
def getOrNull (kvs : List (String × Json)) (key : String) : Json :=
  (lookupLast key kvs).getD .null

/-- Python's `d.get(key, default)` on a dict. -/
def getD (kvs : List (String × Json)) (key : String) (default : Json) : Json :=
  (lookupLast key kvs).getD default

/-- The Python type name of a JSON value, as it appears in
`AttributeError` messages (numbers are reported as `int`; the
int/float distinction of Python is not tracked by the model). -/
def pyTypeName : Json → String
  | .null => "NoneType"
  | .bool _ => "bool"
  | .num _ => "int"
  | .str _ => "str"
  | .arr _ => "list"
  | .obj _ => "dict"

/-- `str(e)` for the `AttributeError` raised by `x.get(...)` when `x`
is not a dict. -/
def attrErrGet (j : Json) : String :=
  "'" ++ pyTypeName j ++ "' object has no attribute 'get'"

end Json

/-! ### Python string helpers

Modelled over the character list of a `String` so that every operation
is structurally recursive and kernel-evaluable.  Whitespace is the
ASCII whitespace Python strips in practice on this protocol. -/

/-- ASCII whitespace recognised by `str.strip` / `json.loads` skipping. -/
def isWs (c : Char) : Bool :=
  c = ' ' || c = '\t' || c = '\n' || c = '\r'

/-- Drop leading whitespace from a character list. -/
def dropWs : List Char → List Char
  | [] => []
  | c :: cs => if isWs c then dropWs cs else c :: cs

/-- Python's `line.strip()`: remove leading and trailing whitespace. -/
def pyStrip (s : String) : String :=
  ⟨((dropWs ((dropWs s.data.reverse)).reverse))⟩

/-- First `n` characters of a string (`s[:n]` in Python). -/
def pyTake (n : Nat) (s : String) : String := ⟨s.data.take n⟩

/-- Character length of a string (`len(s)` in Python). -/
def pyLen (s : String) : Nat := s.data.length

/-- `sep.join(parts)` in Python. -/
def pyJoin (sep : String) : List String → String
  | [] => ""
  | [p] => p
  | p :: ps => p ++ sep ++ pyJoin sep ps

/-- Split a character list at every occurrence of `/`
(`path.split('/')` in Python; never returns the empty list). -/
def splitSlashAux : List Char → List Char → List (List Char)
  | acc, [] => [acc.reverse]
  | acc, c :: cs =>
      if c = '/' then acc.reverse :: splitSlashAux [] cs
      else splitSlashAux (c :: acc) cs

/-- `path.split('/')[-1]`: the base name used in context formatting. -/
def pyBasename (s : String) : String :=
  ⟨(splitSlashAux [] s.data).getLastD []⟩

/-! ### JSON parsing (`json.loads`)

A recursive-descent parser with explicit fuel (any fuel at least the
input length suffices).  Error strings stand for Python's
`JSONDecodeError` detail; the workers only ever use them as the tail of
an `"Invalid JSON: "` message, so their exact wording is free.
Non-finite float literals (`NaN`, `Infinity`) are not modelled. -/

namespace JsonParse

/-- Leading decimal digits of a character list, and the rest. -/
def digitSpan : List Char → List Char × List Char
  | [] => ([], [])
  | c :: cs =>
      if c.isDigit then
        let (ds, r) := digitSpan cs
        (c :: ds, r)
      else ([], c :: cs)

/-- Numeric value of a digit list. -/
def digitsVal (ds : List Char) : Nat :=
  ds.foldl (fun a c => a * 10 + (c.toNat - 48)) 0

/-- Parse a JSON number (grammar `-? (0 | [1-9][0-9]*) frac? exp?`),
returning its rational value and the remaining input. -/
def parseNumber (cs : List Char) : Except String (ℚ × List Char) := do
  let (neg, cs) := match cs with
    | '-' :: rest => (true, rest)
    | _ => (false, cs)
  let (ids, cs) := digitSpan cs
  if ids.isEmpty then throw "Expecting value"
  else if ids.length > 1 && ids.headD '0' = '0' then throw "Expecting value"
  else do
    let intPart : ℚ := (digitsVal ids : ℚ)
    let (fracPart, cs) ← match cs with
      | '.' :: rest =>
          let (fds, r) := digitSpan rest
          if fds.isEmpty then throw "Expecting digits after decimal point"
          else pure (((digitsVal fds : ℚ) / (10 : ℚ) ^ fds.length, r))
      | _ => pure ((0 : ℚ), cs)
    let (expScale, cs) ← match cs with
      | c :: rest =>
          if c = 'e' || c = 'E' then
            let (esign, rest) := match rest with
              | '-' :: r => (true, r)
              | '+' :: r => (false, r)
              | _ => (false, rest)
            let (eds, r) := digitSpan rest
            if eds.isEmpty then throw "Expecting digits in exponent"
            else
              let e := digitsVal eds
              pure ((if esign then ((10 : ℚ) ^ e)⁻¹ else (10 : ℚ) ^ e, r))
          else pure ((1 : ℚ), c :: rest)
      | [] => pure ((1 : ℚ), ([] : List Char))
    let v := (intPart + fracPart) * expScale
    return (if neg then -v else v, cs)

/-- Hexadecimal value of a character, if any. -/
def hexVal (c : Char) : Option Nat :=
  if c.isDigit then some (c.toNat - 48)
  else if 'a' ≤ c && c ≤ 'f' then some (c.toNat - 87)
  else if 'A' ≤ c && c ≤ 'F' then some (c.toNat - 55)
  else none

/-- Parse the body of a JSON string after the opening quote, handling
the standard escapes; returns the string and the rest of the input. -/
def parseStr : Nat → List Char → List Char → Except String (String × List Char)
  | 0, _, _ => throw "Unterminated string"
  | _ + 1, _, [] => throw "Unterminated string"
  | fuel + 1, acc, c :: cs =>
      if c = '"' then return (⟨acc.reverse⟩, cs)
      else if c = '\\' then
        match cs with
        | [] => throw "Unterminated string"
        | e :: cs' =>
            if e = '"' then parseStr fuel ('"' :: acc) cs'
            else if e = '\\' then parseStr fuel ('\\' :: acc) cs'
            else if e = '/' then parseStr fuel ('/' :: acc) cs'
            else if e = 'n' then parseStr fuel ('\n' :: acc) cs'
            else if e = 't' then parseStr fuel ('\t' :: acc) cs'
            else if e = 'r' then parseStr fuel ('\r' :: acc) cs'
            else if e = 'b' then parseStr fuel ((Char.ofNat 8) :: acc) cs'
            else if e = 'f' then parseStr fuel ((Char.ofNat 12) :: acc) cs'
            else if e = 'u' then
              match cs' with
              | h1 :: h2 :: h3 :: h4 :: cs'' =>
                  match hexVal h1, hexVal h2, hexVal h3, hexVal h4 with
                  | some a, some b, some c', some d =>
                      parseStr fuel
                        ((Char.ofNat (((a * 16 + b) * 16 + c') * 16 + d)) :: acc) cs''
                  | _, _, _, _ => throw "Invalid unicode escape"
              | _ => throw "Invalid unicode escape"
            else throw "Invalid escape"
      else if c.toNat < 32 then throw "Invalid control character"
      else parseStr fuel (c :: acc) cs

mutual

/-- Parse one JSON value (after skipping leading whitespace). -/
def parseVal : Nat → List Char → Except String (Json × List Char)
  | 0, _ => throw "Input too deeply nested"
  | fuel + 1, cs =>
      match dropWs cs with
      | [] => throw "Expecting value"
      | c :: cs' =>
          if c = '"' then do
            let (s, rest) ← parseStr (cs'.length + 1) [] cs'
            return (.str s, rest)
          else if c = '{' then
            match dropWs cs' with
            | '}' :: rest => return (.obj [], rest)
            | cs'' => do
                let (kvs, rest) ← parseMembers fuel cs''
                return (.obj kvs, rest)
          else if c = '[' then
            match dropWs cs' with
            | ']' :: rest => return (.arr [], rest)
            | cs'' => do
                let (xs, rest) ← parseItems fuel cs''
                return (.arr xs, rest)
          else if c = 't' then
            match cs' with
            | 'r' :: 'u' :: 'e' :: rest => return (.bool true, rest)
            | _ => throw "Expecting value"
          else if c = 'f' then
            match cs' with
            | 'a' :: 'l' :: 's' :: 'e' :: rest => return (.bool false, rest)
            | _ => throw "Expecting value"
          else if c = 'n' then
            match cs' with
            | 'u' :: 'l' :: 'l' :: rest => return (.null, rest)
            | _ => throw "Expecting value"
          else if c = '-' || c.isDigit then do
            let (q, rest) ← parseNumber (c :: cs')
            return (.num q, rest)
          else throw "Expecting value"

/-- Parse the members of a JSON object, positioned at the first key. -/
def parseMembers : Nat → List Char → Except String (List (String × Json) × List Char)
  | 0, _ => throw "Input too deeply nested"
  | fuel + 1, cs =>
      match cs with
      | '"' :: cs' => do
          let (k, rest) ← parseStr (cs'.length + 1) [] cs'
          match dropWs rest with
          | ':' :: rest' => do
              let (v, rest'') ← parseVal fuel rest'
              match dropWs rest'' with
              | ',' :: rest''' => do
                  let (kvs, r) ← parseMembers fuel (dropWs rest''')
                  return ((k, v) :: kvs, r)
              | '}' :: rest''' => return ([(k, v)], rest''')
              | _ => throw "Expecting comma delimiter"
          | _ => throw "Expecting colon delimiter"
      | _ => throw "Expecting property name enclosed in double quotes"

/-- Parse the items of a JSON array, positioned at the first item. -/
def parseItems : Nat → List Char → Except String (List Json × List Char)
  | 0, _ => throw "Input too deeply nested"
  | fuel + 1, cs => do
      let (v, rest) ← parseVal fuel cs
      match dropWs rest with
      | ',' :: rest' => do
          let (xs, r) ← parseItems fuel rest'
          return (v :: xs, r)
      | ']' :: rest' => return ([v], rest')
      | _ => throw "Expecting comma delimiter"

end

end JsonParse

/-- Python's `json.loads` on a string: parse exactly one JSON value,
allowing surrounding whitespace, rejecting trailing data. -/
def jsonLoads (s : String) : Except String Json := do
  let (v, rest) ← JsonParse.parseVal (s.data.length + 1) s.data
  match dropWs rest with
  | [] => return v
  | _ => throw "Extra data"

/-! ### `embed_server.py` — the streaming embedding worker

The torch/transformers model is the opaque external collaborator: an
explicit `Backend` value whose `init` models the loading performed by
`setup_model` and whose `embed` models the tokenize → forward → mean-pool
→ normalize pipeline of `get_embedding` applied to the JSON value bound
to `"text"` (an `.error` is a raised exception, the string its `str(e)`).
Printing a JSON line to stdout is modelled by returning the
corresponding `Response` value; `sys.exit` codes are returned naturals. -/

structure Backend where
  init : Except String Unit
  embed : Json → Except String (List ℚ)

/-- The default model identifier (`MODEL_NAME` in both
`embed_server.py` and `embed.py`). -/
def MODEL_NAME : String := "mixedbread-ai/mxbai-embed-large-v1"

/-- One JSON line printed by `embed_server.py`. -/
inductive Response where
  | ready : Response
  | fatal (error : String) : Response
  | resultOk (id : Json) (embedding : List ℚ) (dimensions : Nat) (model : String) : Response
  | resultErr (id : Json) (error : String) : Response

namespace Response

/-- Is this the `\x7b"type": "ready"\x7d` message? -/
def isReady : Response → Bool
  | .ready => true
  | _ => false

/-- Is this a `\x7b"type": "result", ...\x7d` message (success or error)? -/
def isResult : Response → Bool
  | .resultOk _ _ _ _ => true
  | .resultErr _ _ => true
  | _ => false

/-- Is this an error-carrying result message? -/
def isErr : Response → Bool
  | .resultErr _ _ => true
  | _ => false

end Response

/-- Is a JSON value an object (a Python dict)? -/
def Json.isObj : Json → Bool
  | .obj _ => true
  | _ => false

/-- `get_embedding(text, is_query=False)` in `embed_server.py`
(lines 45–80): runs the model pipeline on `text` and wraps any raised
exception in `Exception(f"Embedding generation failed: ...")`.  The
`is_query` parameter is received but never read by the body. -/
def get_embedding (B : Backend) (text : Json) (is_query : Json) : Except String (List ℚ) :=
  match B.embed text with
  | .ok v => .ok v
  | .error e => .error ("Embedding generation failed: " ++ e)

/-- `process_request(request_data)` in `embed_server.py` (lines 82–113),
together with the number of times the model (`Backend.embed`) was
invoked.  `.ok r` means the function printed response `r` and returned;
`.error e` means an exception with `str(e) = e` escaped `process_request`
(which happens exactly when `request_data` is not a dict: the first line
of the `try` block raises `AttributeError`, and the `except` handler
re-raises the same `AttributeError` from `request_data.get("id")`). -/
def process_requestC (B : Backend) (modelName : String) (request_data : Json) :
    Except String Response × Nat :=
  -- the body of the `try` block: `.error` is a raised exception
  let body : Except String Response × Nat :=
    match request_data with
    | .obj kvs =>
        let request_id := Json.getOrNull kvs "id"
        let text := Json.getD kvs "text" (.str "")
        let is_query := Json.getD kvs "is_query" (.bool false)
        if !text.truthy then
          (.error "No text provided", 0)
        else
          match get_embedding B text is_query with
          | .ok embedding =>
              (.ok (.resultOk request_id embedding embedding.length modelName), 1)
          | .error e => (.error e, 1)
    | other => (.error (Json.attrErrGet other), 0)
  match body with
  | (.ok resp, n) => (.ok resp, n)
  | (.error e, n) =>
      -- the `except` handler: prints an error response carrying
      -- `request_data.get("id")`, itself raising on a non-dict
      match request_data with
      | .obj kvs => (.ok (.resultErr (Json.getOrNull kvs "id") e), n)
      | other => (.error (Json.attrErrGet other), n)

/-- `process_request` without the instrumentation counter. -/
def process_request (B : Backend) (modelName : String) (request_data : Json) :
    Except String Response :=
  (process_requestC B modelName request_data).1

/-- One iteration of the `for line in sys.stdin` loop in `main`
(`embed_server.py` lines 136–159): `none` when the stripped line is
blank (no response emitted), otherwise exactly one response together
with the number of `Backend.embed` invocations it caused. -/
def handle_lineC (B : Backend) (modelName : String) (line : String) :
    Option (Response × Nat) :=
  let line := pyStrip line
  if line = "" then none
  else
    match jsonLoads line with
    | .ok request_data =>
        match process_requestC B modelName request_data with
        | (.ok resp, n) => some (resp, n)
        | (.error e, n) =>
            some (.resultErr .null ("Request processing error: " ++ e), n)
    | .error e => some (.resultErr .null ("Invalid JSON: " ++ e), 0)

/-- `handle_lineC` without the instrumentation counter. -/
def handle_line (B : Backend) (modelName : String) (line : String) : Option Response :=
  (handle_lineC B modelName line).map (·.1)

/-- The responses the streaming loop emits for a list of input lines. -/
def lineResponses (B : Backend) (modelName : String) (lines : List String) :
    List Response :=
  (lines.filterMap (handle_lineC B modelName)).map (·.1)

/-- The observable outcome of one `embed_server.py` process. -/
structure Run where
  output : List Response
  exitCode : Nat
  embedCalls : Nat

/-- `main()` of `embed_server.py` (lines 119–164) on a given stdin:
`setup_model()` either prints `ready` (and the loop runs to EOF, exit
code 0) or prints a fatal error message and exits 1 before reading any
input. -/
def runMain (B : Backend) (modelName : String) (lines : List String) : Run :=
  match B.init with
  | .error e => ⟨[.fatal ("Failed to load model: " ++ e)], 1, 0⟩
  | .ok _ =>
      let outs := lines.filterMap (handle_lineC B modelName)
      ⟨.ready :: outs.map (·.1), 0, (outs.map (·.2)).sum⟩

/-! ### `llm_rag.py` — the one-shot RAG worker

The DeepSeek/Qwen generation model is again an opaque collaborator:
`RagBackend.device` is the result of `_get_best_device()` (a pure
function of environment capability), `load` models
`CodeRAGService.load_model`, `applyChatTemplate` models
`tokenizer.apply_chat_template` (an `.error` makes `generate_explanation`
fall back to plain concatenation), and `generate` models the
tokenize → `model.generate` → decode pipeline on the formatted prompt. -/

structure RagBackend where
  device : String
  load : Except String Unit
  applyChatTemplate : List (String × String) → Except String String
  generate : String → Except String String

/-- `str(x)` on a JSON value, used where Python interpolates a value
into an f-string.  The rendering of non-string scalars is approximate
(Python prints floats with its own shortest-roundtrip algorithm); every
claim below only ever interpolates strings. -/
def pyToStr : Json → String
  | .str s => s
  | .null => "None"
  | .bool true => "True"
  | .bool false => "False"
  | .num q => if q.den = 1 then toString q.num else toString q.num ++ "e0/" ++ toString q.den
  | .arr _ => "[...]"
  | .obj _ => "\x7b...\x7d"

/-- `f"{similarity:.1%}"`: a float rendered as a percentage with one
decimal digit.  Rounding of the decimal expansion is modelled as round
half up on exact rationals (Python rounds the binary double half to
even); similarities are in `[0,1]` per the data model. -/
def formatPct1 (q : ℚ) : String :=
  let t : Int := Int.fdiv (2000 * q.num + q.den) (2 * q.den)
  let n := t.toNat
  toString (n / 10) ++ "." ++ toString (n % 10) ++ "%"

/-- `str(e)` for the `TypeError` raised by slicing a non-list. -/
def pySubscriptErr (j : Json) : String :=
  "'" ++ Json.pyTypeName j ++ "' object is not subscriptable"

/-- The loop body of `format_search_context` (`llm_rag.py` lines 80–94):
render one search result as one numbered block.  `node_type` is fetched
by the source but never rendered.  A result whose fields fall outside
the `SearchResult` data model (non-string `file_path`/`source_text`,
non-numeric `similarity`, non-dict result) raises in Python; this is
modelled as an `.error`. -/
def format_snippet (i : Nat) (result : Json) : Except String String :=
  match result with
  | .obj kvs =>
      let file_path := Json.getD kvs "file_path" (.str "Unknown file")
      let similarity := Json.getD kvs "similarity" (.num 0)
      let source_text := Json.getD kvs "source_text" (.str "No source available")
      match file_path, similarity, source_text with
      | .str fp, .num sim, .str st =>
          let st := if pyLen st > 600 then pyTake 600 st ++ "..." else st
          .ok ("\nCode Snippet " ++ toString i ++ " (Relevance: " ++ formatPct1 sim
                ++ ") from " ++ pyBasename fp ++ ":\n" ++ st ++ "\n")
      | _, _, _ => .error "unsupported field type in search result"
  | other => .error (Json.attrErrGet other)

/-- The `for i, result in enumerate(search_results[:max_results], 1)`
loop of `format_search_context`, accumulating the rendered blocks. -/
def format_snippets : Nat → List Json → Except String (List String)
  | _, [] => .ok []
  | i, r :: rs => do
      let p ← format_snippet i r
      let ps ← format_snippets (i + 1) rs
      return p :: ps

/-- `CodeRAGService.format_search_context(search_results, max_results=8)`
(`llm_rag.py` lines 72–96): the fixed sentinel for a falsy argument,
otherwise the first `max_results` results rendered in input order and
joined with newlines.  A truthy non-list argument raises at the slice. -/
def format_search_context (search_results : Json) (max_results : Nat := 8) :
    Except String String :=
  if !search_results.truthy then .ok "No search results provided."
  else
    match search_results with
    | .arr rs => do
        let context_parts ← format_snippets 1 (rs.take max_results)
        return pyJoin "\n" context_parts
    | other => .error (pySubscriptErr other)

/-- The system prompt of `create_messages` (`llm_rag.py` lines 100–108). -/
def system_prompt : String :=
  "You are a senior software engineer providing concise code explanations. Your goal is to synthesize search results into a single, coherent explanation.\n\nGuidelines:\n- Write 1-2 paragraphs maximum\n- Focus on the overall approach and key mechanisms\n- Explain how the pieces work together as a unified system\n- Use clear, developer-friendly language\n- Avoid file-by-file breakdowns - instead provide a unified explanation\n- Be direct and specific about what the code accomplishes"

/-- The user prompt of `create_messages` (`llm_rag.py` lines 110–116). -/
def user_prompt (query context : String) : String :=
  "Query: \"" ++ query
    ++ "\"\n\nBased on these search results from the codebase, provide a single, unified explanation of how this functionality works:\n\n"
    ++ context
    ++ "\n\nWrite a cohesive explanation (1-2 paragraphs) that explains the overall approach and implementation for \""
    ++ query ++ "\" without breaking it down file-by-file."

/-- `CodeRAGService.create_messages(query, context)` (lines 98–121):
the two-role message list. -/
def create_messages (query context : String) : List (String × String) :=
  [("system", system_prompt), ("user", user_prompt query context)]

/-- `CodeRAGService.generate_explanation(query, search_results)`
(lines 123–177), with the number of `RagBackend.generate` invocations.
The service is only reached with the model already loaded (the caller
loads it first), so the `load_model` guard at the top is a no-op here.
`.error` is a raised exception escaping the method. -/
def generate_explanationC (RB : RagBackend) (query : Json) (search_results : Json) :
    Except String String × Nat :=
  match format_search_context search_results with
  | .error e => (.error e, 0)
  | .ok context =>
      let messages := create_messages (pyToStr query) context
      let formatted_prompt :=
        match RB.applyChatTemplate messages with
        | .ok p => p
        | .error _ =>
            -- fallback for models without chat templates
            system_prompt ++ "\n\n" ++ user_prompt (pyToStr query) context
              ++ "\n\nAssistant:"
      match RB.generate formatted_prompt with
      | .ok generated_text => (.ok (pyStrip generated_text), 1)
      | .error e => (.error ("Generation failed: " ++ e), 1)

/-- The flat response object of the RAG worker. -/
inductive RagResult where
  | ok (explanation model device : String)
  | err (error model : String)

namespace RagResult

/-- The `"success"` field of the response. -/
def success : RagResult → Bool
  | .ok _ _ _ => true
  | .err _ _ => false

/-- The `"error"` field of an error response. -/
def errorMsg : RagResult → Option String
  | .err e _ => some e
  | _ => none

end RagResult

/-- `rag_service.model_name if rag_service else "unknown"`: the global
service is modelled by the optional model name it was constructed with. -/
def ragModelOf (rag_service : Option String) : String :=
  rag_service.getD "unknown"

/-- `process_request(request_data)` of `llm_rag.py` (lines 187–230),
returning the response dictionary, the global `rag_service` after the
call, and the number of model invocations (`load_model` plus
`generate`).  The surrounding `try` turns every raised exception into
an error response (including the `AttributeError` from `.get` on a
non-dict), so no exception escapes. -/
def rag_process_requestC (RB : RagBackend) (rag_service : Option String)
    (request_data : Json) : RagResult × Option String × Nat :=
  match request_data with
  | .obj kvs =>
      let query := Json.getD kvs "query" (.str "")
      let search_results := Json.getD kvs "search_results" (.arr [])
      if !query.truthy then
        (.err "Query is required" (ragModelOf rag_service), rag_service, 0)
      else if !search_results.truthy then
        (.err "No search results provided" (ragModelOf rag_service), rag_service, 0)
      else
        match rag_service with
        | none =>
            -- rag_service = CodeRAGService(model_name); rag_service.load_model()
            let model_name := pyToStr (Json.getD kvs "model"
              (.str "Qwen/Qwen2.5-Coder-1.5B-Instruct"))
            match RB.load with
            | .error e =>
                -- load_model raises RuntimeError(f"Failed to load model: ...")
                (.err ("Failed to load model: " ++ e) model_name, some model_name, 1)
            | .ok _ =>
                match generate_explanationC RB query search_results with
                | (.ok explanation, g) =>
                    (.ok explanation model_name RB.device, some model_name, 1 + g)
                | (.error e, g) => (.err e model_name, some model_name, 1 + g)
        | some model_name =>
            match generate_explanationC RB query search_results with
            | (.ok explanation, g) =>
                (.ok explanation model_name RB.device, some model_name, g)
            | (.error e, g) => (.err e model_name, some model_name, g)
  | other => (.err (Json.attrErrGet other) (ragModelOf rag_service), rag_service, 0)

/-- `main()` of `llm_rag.py` (lines 232–266): one-shot mode.  All of
stdin is parsed as one JSON document; a parse failure prints an error
response and exits 1; otherwise `process_request` (which never raises)
produces the single response and the process exits 0. -/
def ragMain (RB : RagBackend) (input : String) : RagResult × Nat :=
  match jsonLoads input with
  | .ok input_data =>
      let (result, _, _) := rag_process_requestC RB none input_data
      (result, 0)
  | .error e => (.err ("Invalid JSON input: " ++ e) "unknown", 1)

/-! ### `embed.py` — the one-shot embedding worker

Same `Backend` collaborator as `embed_server.py`, but the module-level
`get_embedding` has no `try`/`except` wrapper (exceptions propagate raw
to the `__main__` handler), unparseable stdin falls back to treating the
whole input as plain text, and an error response is followed by
`sys.exit(1)`. -/

/-- `get_embedding(code_string, is_query=False)` in `embed.py`
(lines 15–33): the raw model pipeline, no exception wrapping.  The
`is_query` parameter is received but never read by the body. -/
def get_embedding_py (B : Backend) (text : Json) (is_query : Json) :
    Except String (List ℚ) :=
  B.embed text

/-- The JSON line printed by `embed.py`. -/
inductive EmbedOneshotResult where
  | ok (embedding : List ℚ) (dimensions : Nat) (model : String) : EmbedOneshotResult
  | err (error : String) : EmbedOneshotResult

/-- The shared tail of `embed.py`'s `__main__` after `text`/`is_query`
have been extracted: validate, embed, print, choose the exit code. -/
def embedOneshotBody (B : Backend) (text : Json) (is_query : Json) :
    EmbedOneshotResult × Nat :=
  if !text.truthy then (.err "No text provided", 1)
  else
    match get_embedding_py B text is_query with
    | .ok embedding => (.ok embedding embedding.length MODEL_NAME, 0)
    | .error e => (.err e, 1)

/-- `__main__` of `embed.py` (lines 38–70) on a given stdin.  The inner
`try` only catches `json.JSONDecodeError` (falling back to plain text);
a parsed non-dict raises `AttributeError` at `.get`, which the outer
handler converts to an error response with exit code 1. -/
def embedOneshot (B : Backend) (input : String) : EmbedOneshotResult × Nat :=
  let input_data := pyStrip input
  match jsonLoads input_data with
  | .ok (.obj kvs) =>
      embedOneshotBody B (Json.getD kvs "text" (.str ""))
        (Json.getD kvs "is_query" (.bool false))
  | .ok other => (.err (Json.attrErrGet other), 1)
  | .error _ => embedOneshotBody B (.str input_data) (.bool false)

/-! ### Mock backends for concrete witnesses -/

/-- A mock embedding backend: loads successfully and embeds everything
to the fixed vector `[1, 2, 3]`. -/
def mockBackend : Backend := ⟨.ok (), fun _ => .ok [1, 2, 3]⟩

/-- A mock embedding backend whose model load fails. -/
def mockBadBackend : Backend := ⟨.error "out of memory", fun _ => .ok []⟩

/-- A mock generation backend: loads successfully, supports chat
templates, and generates a fixed explanation. -/
def mockRagBackend : RagBackend :=
  ⟨"cpu", .ok (), fun _ => .ok "prompt", fun _ => .ok "an explanation"⟩

/-! ### The `SearchResult` data model and a rendering characterization -/

/-- A well-typed search result, as in §3 of the specification:
`\x7bfile_path, node_type, similarity, source_text\x7d`. -/
structure SearchResult where
  file_path : String
  node_type : String
  similarity : ℚ
  source_text : String

/-- The JSON object the controller sends for a `SearchResult`. -/
def SearchResult.toJson (r : SearchResult) : Json :=
  .obj [("file_path", .str r.file_path), ("node_type", .str r.node_type),
        ("similarity", .num r.similarity), ("source_text", .str r.source_text)]

/-- The block that context formatting renders for the `i`-th (1-based)
well-typed search result: used to characterize `format_search_context`
independently of its accumulating loop. -/
def renderBlock (i : Nat) (r : SearchResult) : String :=
  "\nCode Snippet " ++ toString i ++ " (Relevance: " ++ formatPct1 r.similarity
    ++ ") from " ++ pyBasename r.file_path ++ ":\n"
    ++ (if pyLen r.source_text > 600 then pyTake 600 r.source_text ++ "..."
        else r.source_text) ++ "\n"

/-- The blocks rendered for a list of well-typed search results,
numbered from `i`: the order-preserving characterization of the
formatting loop. -/
def renderBlocks : Nat → List SearchResult → List String
  | _, [] => []
  | i, r :: rs => renderBlock i r :: renderBlocks (i + 1) rs

/-! ## Helper lemmas -/

/-- Appending a binding for a different key does not change a lookup. -/
theorem lookupLast_snoc_ne {key k0 : String} (v : Json)
    (kvs : List (String × Json)) (h : ¬ k0 = key) :
    Json.lookupLast key (kvs ++ [(k0, v)]) = Json.lookupLast key kvs := by
  induction kvs with
  | nil => simp [Json.lookupLast, h]
  | cons kv rest ih =>
      obtain ⟨k1, v1⟩ := kv
      show Json.lookupLast key ((k1, v1) :: (rest ++ [(k0, v)])) = _
      unfold Json.lookupLast
      rw [ih]

/-- Dict-shaped requests: how `process_request` of `embed_server.py`
dispatches on the extracted `text` and the model outcome. -/
theorem process_requestC_obj (B : Backend) (m : String)
    (kvs : List (String × Json)) :
    process_requestC B m (.obj kvs)
      = if (Json.getD kvs "text" (.str "")).truthy = false
        then (.ok (.resultErr (Json.getOrNull kvs "id") "No text provided"), 0)
        else
          match get_embedding B (Json.getD kvs "text" (.str ""))
              (Json.getD kvs "is_query" (.bool false)) with
          | .ok embedding =>
              (.ok (.resultOk (Json.getOrNull kvs "id") embedding
                embedding.length m), 1)
          | .error e => (.ok (.resultErr (Json.getOrNull kvs "id") e), 1) := by
  by_cases ht : (Json.getD kvs "text" (.str "")).truthy
  · simp only [process_requestC, ht, Bool.not_true, if_false, ite_false,
      Bool.true_eq_false]
    cases hg : get_embedding B (Json.getD kvs "text" (.str ""))
        (Json.getD kvs "is_query" (.bool false)) <;> simp [hg]
  · simp only [Bool.not_eq_true] at ht
    simp [process_requestC, ht]

/-- Non-dict requests make `process_request` raise the `AttributeError`
from `.get`. -/
theorem process_requestC_nonobj (B : Backend) (m : String) (j : Json)
    (h : j.isObj = false) :
    process_requestC B m j = (.error (Json.attrErrGet j), 0) := by
  cases j <;> first
    | rfl
    | exact absurd h (by simp [Json.isObj])

/-- Every response the streaming loop emits for a line is a
`\x7b"type": "result", ...\x7d` message, never `ready` or a fatal one. -/
theorem handle_lineC_isResult {B : Backend} {m line : String} {r : Response}
    {n : Nat} (h : handle_lineC B m line = some (r, n)) : r.isResult = true := by
  unfold handle_lineC at h
  by_cases hb : pyStrip line = ""
  · simp [hb] at h
  · simp only [hb, ite_false, if_false] at h
    cases hj : jsonLoads (pyStrip line) with
    | ok rd =>
        simp only [hj] at h
        rcases hp : process_requestC B m rd with ⟨res, k⟩
        simp only [hp] at h
        cases res with
        | ok resp =>
            simp only [Option.some.injEq, Prod.mk.injEq] at h
            rw [← h.1]
            rcases rd with _ | b | q | s | xs | kvs
            · rw [process_requestC_nonobj B m .null rfl] at hp
              exact absurd hp (by simp)
            · rw [process_requestC_nonobj B m (.bool b) rfl] at hp
              exact absurd hp (by simp)
            · rw [process_requestC_nonobj B m (.num q) rfl] at hp
              exact absurd hp (by simp)
            · rw [process_requestC_nonobj B m (.str s) rfl] at hp
              exact absurd hp (by simp)
            · rw [process_requestC_nonobj B m (.arr xs) rfl] at hp
              exact absurd hp (by simp)
            rw [process_requestC_obj] at hp
            split at hp
            · injection hp with hp1 hp2
              injection hp1 with hp3
              rw [← hp3]
              rfl
            · split at hp <;>
                · injection hp with hp1 hp2
                  injection hp1 with hp3
                  rw [← hp3]
                  rfl
        | error e =>
            simp only [Option.some.injEq, Prod.mk.injEq] at h
            rw [← h.1]
            rfl
    | error e =>
        simp only [hj] at h
        simp only [Option.some.injEq, Prod.mk.injEq] at h
        rw [← h.1]
        rfl

/-- The streaming main loop over a successfully loaded backend: `ready`
first, then one response per processed line, exit code 0. -/
theorem runMain_ok {B : Backend} (m : String) (lines : List String)
    (h : B.init = .ok ()) :
    (runMain B m lines).output = .ready :: lineResponses B m lines ∧
    (runMain B m lines).exitCode = 0 := by
  simp [runMain, h, lineResponses]

/-- `lineResponses` distributes over concatenation of the input. -/
theorem lineResponses_append (B : Backend) (m : String) (xs ys : List String) :
    lineResponses B m (xs ++ ys)
      = lineResponses B m xs ++ lineResponses B m ys := by
  simp [lineResponses, List.filterMap_append]

/-- The single response of a one-line input. -/
theorem lineResponses_singleton {B : Backend} {m l : String} {r : Response}
    {n : Nat} (h : handle_lineC B m l = some (r, n)) :
    lineResponses B m [l] = [r] := by
  simp [lineResponses, h]

/-- A non-blank line that fails to parse yields the null-id
invalid-JSON response and no model call. -/
theorem handle_lineC_invalid {B : Backend} {m line e : String}
    (h1 : pyStrip line ≠ "") (h2 : jsonLoads (pyStrip line) = .error e) :
    handle_lineC B m line
      = some (.resultErr .null ("Invalid JSON: " ++ e), 0) := by
  simp [handle_lineC, h1, h2]

/-! ## The claims -/

/-- C4: in streaming mode, every input line that is blank after trimming
produces no response at all (silently skipped, not an error), and every
non-blank input line produces exactly one response. -/
theorem streaming_blank_skip_one_response (B : Backend) (m line : String) :
    (pyStrip line = "" → handle_line B m line = none) ∧
    (pyStrip line ≠ "" → ∃ r, handle_line B m line = some r) := by
  constructor
  · intro h
    simp [handle_line, handle_lineC, h]
  · intro h
    unfold handle_line handle_lineC
    simp only [h, ite_false, if_false]
    cases hj : jsonLoads (pyStrip line) with
    | ok rd =>
        simp only [hj]
        rcases hp : process_requestC B m rd with ⟨res, k⟩
        cases res <;> simp
    | error e => simp [hj]

/-- Witness for C4 at a blank and a non-blank concrete line. -/
theorem streaming_blank_skip_one_response_witness :
    handle_line mockBackend MODEL_NAME "   " = none ∧
    ∃ r, handle_line mockBackend MODEL_NAME " \x7b\"text\":\"a\"\x7d " = some r :=
  ⟨(streaming_blank_skip_one_response mockBackend MODEL_NAME "   ").1 (by decide),
   (streaming_blank_skip_one_response mockBackend MODEL_NAME
      " \x7b\"text\":\"a\"\x7d ").2 (by decide)⟩

/-- C2: every input line that fails to parse as JSON yields an error
result whose message starts with "Invalid JSON: " and whose id is null,
regardless of how many valid lines were processed before it. -/
theorem invalid_json_null_id_error (B : Backend) (m line e : String)
    (prior : List String)
    (hinit : B.init = .ok ())
    (h1 : pyStrip line ≠ "")
    (h2 : jsonLoads (pyStrip line) = .error e) :
    handle_line B m line
      = some (.resultErr .null ("Invalid JSON: " ++ e)) ∧
    (runMain B m (prior ++ [line])).output
      = (runMain B m prior).output
          ++ [.resultErr .null ("Invalid JSON: " ++ e)] := by
  have hl := handle_lineC_invalid (B := B) (m := m) h1 h2
  constructor
  · simp [handle_line, hl]
  · rw [(runMain_ok m (prior ++ [line]) hinit).1, (runMain_ok m prior hinit).1,
      lineResponses_append, lineResponses_singleton hl]
    simp

/-- Witness for C2: the malformed line `\x7bbad json` after one valid
request still yields the null-id invalid-JSON error, appended to the
responses of the prior input. -/
theorem invalid_json_null_id_error_witness :
    handle_line mockBackend MODEL_NAME "\x7bbad json"
      = some (.resultErr .null ("Invalid JSON: "
            ++ "Expecting property name enclosed in double quotes")) ∧
    (runMain mockBackend MODEL_NAME
        (["\x7b\"id\":1,\"text\":\"a\"\x7d"] ++ ["\x7bbad json"])).output
      = (runMain mockBackend MODEL_NAME ["\x7b\"id\":1,\"text\":\"a\"\x7d"]).output
          ++ [.resultErr .null ("Invalid JSON: "
                ++ "Expecting property name enclosed in double quotes")] :=
  invalid_json_null_id_error mockBackend MODEL_NAME "\x7bbad json"
    "Expecting property name enclosed in double quotes"
    ["\x7b\"id\":1,\"text\":\"a\"\x7d"] rfl (by decide)
    (by with_unfolding_all rfl)

/-- C1: per-request isolation in the streaming worker.  A failing line
contributes exactly one error-typed result response and the worker has no
per-request state, so surrounding lines are processed exactly as by a
fresh process; the concrete three-line sequence yields success(id=1),
error(id=null), success(id=2) in order, and the loop accepts a fourth
line afterwards. -/
theorem per_request_isolation (B : Backend) (m bad : String)
    (pre post : List String) (r : Response) (n : Nat)
    (hinit : B.init = .ok ())
    (hbad : handle_lineC B m bad = some (r, n))
    (herr : r.isErr = true) :
    (runMain B m (pre ++ bad :: post)).output
      = .ready :: (lineResponses B m pre ++ r :: lineResponses B m post) ∧
    (runMain mockBackend MODEL_NAME
        ["\x7b\"id\":1,\"text\":\"a\"\x7d", "\x7bbad json",
         "\x7b\"id\":2,\"text\":\"b\"\x7d"]).output
      = [.ready,
         .resultOk (.num 1) [1, 2, 3] 3 MODEL_NAME,
         .resultErr .null ("Invalid JSON: "
           ++ "Expecting property name enclosed in double quotes"),
         .resultOk (.num 2) [1, 2, 3] 3 MODEL_NAME] ∧
    (runMain mockBackend MODEL_NAME
        ["\x7b\"id\":1,\"text\":\"a\"\x7d", "\x7bbad json",
         "\x7b\"id\":2,\"text\":\"b\"\x7d", "\x7b\"id\":3,\"text\":\"c\"\x7d"]).output
      = [.ready,
         .resultOk (.num 1) [1, 2, 3] 3 MODEL_NAME,
         .resultErr .null ("Invalid JSON: "
           ++ "Expecting property name enclosed in double quotes"),
         .resultOk (.num 2) [1, 2, 3] 3 MODEL_NAME,
         .resultOk (.num 3) [1, 2, 3] 3 MODEL_NAME] := by
  refine ⟨?_, by with_unfolding_all rfl, by with_unfolding_all rfl⟩
  rw [(runMain_ok m (pre ++ bad :: post) hinit).1,
    show bad :: post = [bad] ++ post from rfl,
    lineResponses_append, lineResponses_append, lineResponses_singleton hbad]
  simp

/-- Witness for C1: the decomposition applied to the concrete scenario,
with the malformed middle line as the failing one. -/
theorem per_request_isolation_witness :
    (runMain mockBackend MODEL_NAME
        (["\x7b\"id\":1,\"text\":\"a\"\x7d"] ++ "\x7bbad json"
          :: ["\x7b\"id\":2,\"text\":\"b\"\x7d"])).output
      = .ready :: (lineResponses mockBackend MODEL_NAME
            ["\x7b\"id\":1,\"text\":\"a\"\x7d"]
          ++ .resultErr .null ("Invalid JSON: "
                ++ "Expecting property name enclosed in double quotes")
            :: lineResponses mockBackend MODEL_NAME
                ["\x7b\"id\":2,\"text\":\"b\"\x7d"]) :=
  (per_request_isolation mockBackend MODEL_NAME "\x7bbad json"
    ["\x7b\"id\":1,\"text\":\"a\"\x7d"] ["\x7b\"id\":2,\"text\":\"b\"\x7d"]
    (.resultErr .null ("Invalid JSON: "
      ++ "Expecting property name enclosed in double quotes")) 0
    rfl (by with_unfolding_all rfl) rfl).1

/-- A result message is not the ready message. -/
theorem Response.isResult_not_isReady {r : Response} (h : r.isResult = true) :
    r.isReady = false := by
  cases r <;> simp_all [Response.isResult, Response.isReady]

/-- Every response the loop emits for its lines is a result message. -/
theorem lineResponses_all_isResult (B : Backend) (m : String)
    (lines : List String) :
    ∀ r ∈ lineResponses B m lines, r.isResult = true := by
  intro r hr
  rcases List.mem_map.mp hr with ⟨⟨r', n⟩, hmem, hfst⟩
  rcases List.mem_filterMap.mp hmem with ⟨line, -, hline⟩
  cases hfst
  exact handle_lineC_isResult hline

/-- C7: lifecycle ordering of the streaming worker.  On successful
initialization the ready message is emitted exactly once, first, before
any result; on initialization failure the process emits one error-typed
message, exits nonzero, and neither emits a result nor invokes the model
for any request. -/
theorem lifecycle_ready_once (B : Backend) (m : String) (lines : List String) :
    (∀ e, B.init = .error e →
        (runMain B m lines).output = [.fatal ("Failed to load model: " ++ e)] ∧
        (runMain B m lines).exitCode = 1 ∧
        (runMain B m lines).embedCalls = 0 ∧
        (runMain B m lines).output.countP (fun r => r.isResult) = 0) ∧
    (B.init = .ok () →
        (runMain B m lines).output = .ready :: lineResponses B m lines ∧
        (runMain B m lines).output.countP (fun r => r.isReady) = 1 ∧
        ∀ r ∈ lineResponses B m lines, r.isResult = true) := by
  constructor
  · intro e he
    refine ⟨?_, ?_, ?_, ?_⟩ <;> simp [runMain, he, Response.isResult]
  · intro hinit
    refine ⟨(runMain_ok m lines hinit).1, ?_, lineResponses_all_isResult B m lines⟩
    rw [(runMain_ok m lines hinit).1]
    rw [List.countP_cons]
    have hz : (lineResponses B m lines).countP (fun r => r.isReady) = 0 := by
      rw [List.countP_eq_zero]
      intro r hr
      simp [Response.isResult_not_isReady (lineResponses_all_isResult B m lines r hr)]
    rw [hz]
    rfl

/-- Witness for C7: a failing load (exit 1, no ready, no result) and a
successful load (ready exactly once, then results). -/
theorem lifecycle_ready_once_witness :
    ((runMain mockBadBackend MODEL_NAME ["\x7b\"text\":\"a\"\x7d"]).output
        = [.fatal ("Failed to load model: " ++ "out of memory")] ∧
      (runMain mockBadBackend MODEL_NAME ["\x7b\"text\":\"a\"\x7d"]).exitCode = 1 ∧
      (runMain mockBadBackend MODEL_NAME ["\x7b\"text\":\"a\"\x7d"]).embedCalls = 0 ∧
      (runMain mockBadBackend MODEL_NAME
          ["\x7b\"text\":\"a\"\x7d"]).output.countP (fun r => r.isResult) = 0) ∧
    ((runMain mockBackend MODEL_NAME ["\x7b\"text\":\"a\"\x7d"]).output
        = .ready :: lineResponses mockBackend MODEL_NAME ["\x7b\"text\":\"a\"\x7d"] ∧
      (runMain mockBackend MODEL_NAME
          ["\x7b\"text\":\"a\"\x7d"]).output.countP (fun r => r.isReady) = 1 ∧
      ∀ r ∈ lineResponses mockBackend MODEL_NAME ["\x7b\"text\":\"a\"\x7d"],
        r.isResult = true) :=
  ⟨(lifecycle_ready_once mockBadBackend MODEL_NAME ["\x7b\"text\":\"a\"\x7d"]).1
      "out of memory" rfl,
   (lifecycle_ready_once mockBackend MODEL_NAME ["\x7b\"text\":\"a\"\x7d"]).2 rfl⟩

/-- C9: noninterference of `is_query`.  Adding (or changing) an
`is_query` binding in a request leaves the response of the streaming
worker's `process_request` unchanged, and the `get_embedding` functions
of both workers ignore their `is_query` argument entirely: the field is
accepted but never observably changes the computation. -/
theorem is_query_noninterference (B : Backend) (m : String)
    (kvs : List (String × Json)) (v : Json) :
    process_requestC B m (.obj (kvs ++ [("is_query", v)]))
      = process_requestC B m (.obj kvs) ∧
    (∀ t q q' : Json, get_embedding B t q = get_embedding B t q') ∧
    (∀ t q q' : Json, get_embedding_py B t q = get_embedding_py B t q') := by
  refine ⟨?_, fun t q q' => rfl, fun t q q' => rfl⟩
  rw [process_requestC_obj, process_requestC_obj]
  have hid : Json.getOrNull (kvs ++ [("is_query", v)]) "id"
      = Json.getOrNull kvs "id" := by
    simp [Json.getOrNull, @lookupLast_snoc_ne "id" "is_query" v kvs (by decide)]
  have htext : Json.getD (kvs ++ [("is_query", v)]) "text" (.str "")
      = Json.getD kvs "text" (.str "") := by
    simp [Json.getD, @lookupLast_snoc_ne "text" "is_query" v kvs (by decide)]
  rw [hid, htext]
  have hge : get_embedding B (Json.getD kvs "text" (.str ""))
        (Json.getD (kvs ++ [("is_query", v)]) "is_query" (.bool false))
      = get_embedding B (Json.getD kvs "text" (.str ""))
        (Json.getD kvs "is_query" (.bool false)) := rfl
  rw [hge]

/-- C10: an input line that parses as valid JSON but is not a JSON object
still yields exactly one error result — id null, message beginning
"Request processing error: " — and the read loop continues, even though
the error-reporting path inside `process_request` itself raises when
re-reading the id from the non-object value. -/
theorem nonobject_line_generic_error (B : Backend) (m line : String) (j : Json)
    (hparse : jsonLoads (pyStrip line) = .ok j)
    (hobj : j.isObj = false) :
    process_request B m j = .error (Json.attrErrGet j) ∧
    handle_line B m line
      = some (.resultErr .null
          ("Request processing error: " ++ Json.attrErrGet j)) ∧
    (∀ pre post, B.init = .ok () →
      (runMain B m (pre ++ line :: post)).output
        = .ready :: (lineResponses B m pre
            ++ .resultErr .null ("Request processing error: " ++ Json.attrErrGet j)
              :: lineResponses B m post)) := by
  have hblank : pyStrip line ≠ "" := by
    intro hb
    rw [hb] at hparse
    have hempty : jsonLoads "" = .error "Expecting value" := by
      with_unfolding_all rfl
    rw [hempty] at hparse
    exact Except.noConfusion hparse
  have hproc : process_requestC B m j = (.error (Json.attrErrGet j), 0) :=
    process_requestC_nonobj B m j hobj
  have hline : handle_lineC B m line
      = some (.resultErr .null
          ("Request processing error: " ++ Json.attrErrGet j), 0) := by
    simp [handle_lineC, hblank, hparse, hproc]
  refine ⟨?_, ?_, ?_⟩
  · simp [process_request, hproc]
  · simp [handle_line, hline]
  · intro pre post hinit
    rw [(runMain_ok m (pre ++ line :: post) hinit).1,
      show line :: post = [line] ++ post from rfl,
      lineResponses_append, lineResponses_append, lineResponses_singleton hline]
    simp

/-- Witness for C10: the line `[1,2]` parses as a JSON array; the worker
emits one generic error with id null and keeps processing. -/
theorem nonobject_line_generic_error_witness :
    process_request mockBackend MODEL_NAME (.arr [.num 1, .num 2])
      = .error (Json.attrErrGet (.arr [.num 1, .num 2])) ∧
    handle_line mockBackend MODEL_NAME "[1,2]"
      = some (.resultErr .null
          ("Request processing error: "
            ++ Json.attrErrGet (.arr [.num 1, .num 2]))) ∧
    (runMain mockBackend MODEL_NAME
        (["\x7b\"id\":1,\"text\":\"a\"\x7d"] ++ "[1,2]"
          :: ["\x7b\"id\":2,\"text\":\"b\"\x7d"])).output
      = .ready :: (lineResponses mockBackend MODEL_NAME
            ["\x7b\"id\":1,\"text\":\"a\"\x7d"]
          ++ .resultErr .null
              ("Request processing error: "
                ++ Json.attrErrGet (.arr [.num 1, .num 2]))
            :: lineResponses mockBackend MODEL_NAME
                ["\x7b\"id\":2,\"text\":\"b\"\x7d"]) := by
  have h := nonobject_line_generic_error mockBackend MODEL_NAME "[1,2]"
    (.arr [.num 1, .num 2]) (by with_unfolding_all rfl) rfl
  exact ⟨h.1, h.2.1, h.2.2 ["\x7b\"id\":1,\"text\":\"a\"\x7d"]
    ["\x7b\"id\":2,\"text\":\"b\"\x7d"] rfl⟩

/-- Dict-shaped RAG requests: how `process_request` of `llm_rag.py`
dispatches on the extracted `query` and `search_results`. -/
theorem rag_process_requestC_validation (RB : RagBackend) (svc : Option String)
    (kvs : List (String × Json)) :
    ((Json.getD kvs "query" (.str "")).truthy = false →
      rag_process_requestC RB svc (.obj kvs)
        = (.err "Query is required" (ragModelOf svc), svc, 0)) ∧
    ((Json.getD kvs "query" (.str "")).truthy = true →
      (Json.getD kvs "search_results" (.arr [])).truthy = false →
      rag_process_requestC RB svc (.obj kvs)
        = (.err "No search results provided" (ragModelOf svc), svc, 0)) := by
  constructor
  · intro hq
    simp [rag_process_requestC, hq]
  · intro hq hs
    simp [rag_process_requestC, hq, hs]

/-- Counterexample to C3 as stated: an embedding request with an empty
`text` is rejected with the message "No text provided", which is not of
the form "text is required". -/
theorem required_field_message_counterexample :
    process_request mockBackend MODEL_NAME (.obj [("id", .null), ("text", .str "")])
      = .ok (.resultErr .null "No text provided") ∧
    "No text provided" ≠ "text is required" :=
  ⟨by with_unfolding_all rfl, by decide⟩

/-- C3 as amended: for every request whose required content field is
missing or empty, the Backend is never invoked and the outcome is an
error; its message is "Query is required" for RAG payloads but
"No text provided" (not "text is required") for embedding payloads. -/
theorem missing_content_field_no_backend_call (B : Backend) (RB : RagBackend)
    (m : String) (kvs rkvs : List (String × Json)) (svc : Option String)
    (htext : (Json.getD kvs "text" (.str "")).truthy = false)
    (hquery : (Json.getD rkvs "query" (.str "")).truthy = false) :
    process_requestC B m (.obj kvs)
      = (.ok (.resultErr (Json.getOrNull kvs "id") "No text provided"), 0) ∧
    rag_process_requestC RB svc (.obj rkvs)
      = (.err "Query is required" (ragModelOf svc), svc, 0) := by
  constructor
  · rw [process_requestC_obj, if_pos htext]
  · exact (rag_process_requestC_validation RB svc rkvs).1 hquery

/-- Witness for the amended C3: a request with empty `text` and a RAG
request with no `query`; both are rejected without a model call. -/
theorem missing_content_field_no_backend_call_witness :
    process_requestC mockBackend MODEL_NAME (.obj [("id", .null), ("text", .str "")])
      = (.ok (.resultErr (Json.getOrNull [("id", .null), ("text", .str "")] "id")
          "No text provided"), 0) ∧
    rag_process_requestC mockRagBackend none (.obj [("query", .str "")])
      = (.err "Query is required" (ragModelOf none), none, 0) :=
  missing_content_field_no_backend_call mockBackend mockRagBackend MODEL_NAME
    [("id", .null), ("text", .str "")] [("query", .str "")] none rfl rfl

/-- C8: a RAG request with a non-empty query but missing or empty
`search_results` is rejected with exactly "No search results provided"
and the Backend is not invoked. -/
theorem empty_search_results_no_backend_call (RB : RagBackend)
    (svc : Option String) (kvs : List (String × Json))
    (hq : (Json.getD kvs "query" (.str "")).truthy = true)
    (hs : (Json.getD kvs "search_results" (.arr [])).truthy = false) :
    rag_process_requestC RB svc (.obj kvs)
      = (.err "No search results provided" (ragModelOf svc), svc, 0) :=
  (rag_process_requestC_validation RB svc kvs).2 hq hs

/-- Witness for C8: a query with absent `search_results` and one with an
explicitly empty list; both rejected with zero model calls. -/
theorem empty_search_results_no_backend_call_witness :
    rag_process_requestC mockRagBackend none (.obj [("query", .str "how")])
      = (.err "No search results provided" (ragModelOf none), none, 0) ∧
    rag_process_requestC mockRagBackend none
        (.obj [("query", .str "how"), ("search_results", .arr [])])
      = (.err "No search results provided" (ragModelOf none), none, 0) :=
  ⟨empty_search_results_no_backend_call mockRagBackend none
      [("query", .str "how")] rfl rfl,
   empty_search_results_no_backend_call mockRagBackend none
      [("query", .str "how"), ("search_results", .arr [])] rfl rfl⟩

/-- Unfolding of `embedOneshot` with the stdin buffer stripped. -/
theorem embedOneshot_eq (B : Backend) (input : String) :
    embedOneshot B input
      = match jsonLoads (pyStrip input) with
        | .ok (.obj kvs) =>
            embedOneshotBody B (Json.getD kvs "text" (.str ""))
              (Json.getD kvs "is_query" (.bool false))
        | .ok other => (.err (Json.attrErrGet other), 1)
        | .error _ => embedOneshotBody B (.str (pyStrip input)) (.bool false) :=
  rfl

/-- `embed.py` exit codes are determined by its single response:
success exits 0, an error response exits 1. -/
theorem embedOneshotBody_exit (B : Backend) (t q : Json) :
    (∀ emb d mm, (embedOneshotBody B t q).1 = .ok emb d mm
        → (embedOneshotBody B t q).2 = 0) ∧
    (∀ e, (embedOneshotBody B t q).1 = .err e
        → (embedOneshotBody B t q).2 = 1) := by
  unfold embedOneshotBody
  by_cases ht : t.truthy
  · simp only [ht, Bool.not_true, ite_false, Bool.false_eq_true, if_false]
    cases hg : get_embedding_py B t q <;> simp
  · simp only [Bool.not_eq_true] at ht
    simp [ht]

/-- Counterexample to C6 as stated: in one-shot mode the RAG worker's
single response to `\x7b"query":""\x7d` is an error, yet the process
exits 0, not 1. -/
theorem oneshot_error_exit_counterexample :
    (ragMain mockRagBackend "\x7b\"query\":\"\"\x7d").1.success = false ∧
    (ragMain mockRagBackend "\x7b\"query\":\"\"\x7d").2 = 0 :=
  ⟨by with_unfolding_all rfl, by with_unfolding_all rfl⟩

/-- C6 as amended: in one-shot mode exactly one response is written.
The RAG worker exits 0 whenever stdin parses as JSON — even when the
single response is an application-level error — and exits 1 exactly on a
top-level parse failure; the `embed.py` worker exits 0 on success and 1
when its single response is an error, and treats unparseable stdin as
plain text input rather than as a fatal parse failure. -/
theorem oneshot_exit_codes (RB : RagBackend) (B : Backend) (input : String) :
    (∀ j, jsonLoads input = .ok j → (ragMain RB input).2 = 0) ∧
    (∀ e, jsonLoads input = .error e →
        ragMain RB input = (.err ("Invalid JSON input: " ++ e) "unknown", 1)) ∧
    (∀ emb d mm, (embedOneshot B input).1 = .ok emb d mm
        → (embedOneshot B input).2 = 0) ∧
    (∀ e, (embedOneshot B input).1 = .err e → (embedOneshot B input).2 = 1) ∧
    (∀ e, jsonLoads (pyStrip input) = .error e →
        embedOneshot B input
          = embedOneshotBody B (.str (pyStrip input)) (.bool false)) := by
  refine ⟨?_, ?_, ?_, ?_, ?_⟩
  · intro j hj
    rcases hp : rag_process_requestC RB none j with ⟨res, s, k⟩
    simp [ragMain, hj, hp]
  · intro e he
    simp [ragMain, he]
  · intro emb d mm
    rw [embedOneshot_eq]
    cases hj : jsonLoads (pyStrip input) with
    | ok rd =>
        rcases rd with _ | b | q | s | xs | kvs
        case obj => exact (embedOneshotBody_exit B _ _).1 emb d mm
        all_goals (intro h; exact absurd h (by simp))
    | error e => exact (embedOneshotBody_exit B _ _).1 emb d mm
  · intro e
    rw [embedOneshot_eq]
    cases hj : jsonLoads (pyStrip input) with
    | ok rd =>
        rcases rd with _ | b | q | s | xs | kvs
        case obj => exact (embedOneshotBody_exit B _ _).2 e
        all_goals (intro h; rfl)
    | error e' => exact (embedOneshotBody_exit B _ _).2 e
  · intro e he
    rw [embedOneshot_eq, he]

/-- Witness for the amended C6: concrete one-shot runs — a parsed RAG
request (exit 0 despite the error response), an unparseable RAG stdin
(exit 1), a successful and a failing `embed.py` request, and the
plain-text fallback of `embed.py` on unparseable stdin. -/
theorem oneshot_exit_codes_witness :
    (ragMain mockRagBackend "\x7b\"query\":\"\"\x7d").2 = 0 ∧
    ragMain mockRagBackend "\x7bbad"
      = (.err ("Invalid JSON input: "
          ++ "Expecting property name enclosed in double quotes") "unknown", 1) ∧
    (embedOneshot mockBackend "\x7b\"text\":\"a\"\x7d").2 = 0 ∧
    (embedOneshot mockBackend "\x7b\"text\":\"\"\x7d").2 = 1 ∧
    embedOneshot mockBackend "plain text"
      = embedOneshotBody mockBackend (.str (pyStrip "plain text")) (.bool false) :=
  ⟨(oneshot_exit_codes mockRagBackend mockBackend "\x7b\"query\":\"\"\x7d").1
      (.obj [("query", .str "")]) (by with_unfolding_all rfl),
   (oneshot_exit_codes mockRagBackend mockBackend "\x7bbad").2.1
      "Expecting property name enclosed in double quotes"
      (by with_unfolding_all rfl),
   (oneshot_exit_codes mockRagBackend mockBackend "\x7b\"text\":\"a\"\x7d").2.2.1
      [1, 2, 3] 3 MODEL_NAME (by with_unfolding_all rfl),
   (oneshot_exit_codes mockRagBackend mockBackend "\x7b\"text\":\"\"\x7d").2.2.2.1
      "No text provided" (by with_unfolding_all rfl),
   (oneshot_exit_codes mockRagBackend mockBackend "plain text").2.2.2.2
      "Expecting value" (by with_unfolding_all rfl)⟩

/-- The formatting loop renders well-typed search results in input
order with 1-based numbering and never raises. -/
theorem format_snippets_renderBlocks (rs : List SearchResult) :
    ∀ i, format_snippets i (rs.map SearchResult.toJson)
      = .ok (renderBlocks i rs) := by
  induction rs with
  | nil => intro i; rfl
  | cons r rest ih =>
      intro i
      show format_snippets i (SearchResult.toJson r :: rest.map SearchResult.toJson)
        = .ok (renderBlock i r :: renderBlocks (i + 1) rest)
      unfold format_snippets
      rw [show format_snippet i (SearchResult.toJson r) = .ok (renderBlock i r)
        from rfl]
      rw [ih (i + 1)]
      rfl

/-- Unfolding of `format_search_context` on a non-empty list. -/
theorem format_search_context_arr_ne {rs : List Json} (h : rs ≠ []) (k : Nat) :
    format_search_context (.arr rs) k
      = (do
          let context_parts ← format_snippets 1 (rs.take k)
          pure (pyJoin "\n" context_parts)) := by
  unfold format_search_context
  have h1 : rs.isEmpty = false := by simp [List.isEmpty_iff, h]
  simp [Json.truthy, h1]

/-- C5: context formatting renders only the first 8 results, in input
order without re-sorting; a `source_text` longer than 600 characters is
truncated to its first 600 followed by "...", one of at most 600
characters is rendered unmodified; and the empty sequence yields the
fixed sentinel string instead of an empty block list. -/
theorem format_search_context_spec :
    (∀ k, format_search_context (.arr []) k = .ok "No search results provided.") ∧
    (∀ rs : List Json, rs ≠ [] →
        format_search_context (.arr rs) 8
          = format_search_context (.arr (rs.take 8)) 8) ∧
    (∀ rs : List SearchResult, rs ≠ [] →
        format_search_context (.arr (rs.map SearchResult.toJson)) 8
          = .ok (pyJoin "\n" (renderBlocks 1 (rs.take 8)))) ∧
    (∀ i (r : SearchResult), pyLen r.source_text > 600 →
        renderBlock i r
          = "\nCode Snippet " ++ toString i ++ " (Relevance: "
              ++ formatPct1 r.similarity ++ ") from " ++ pyBasename r.file_path
              ++ ":\n" ++ (pyTake 600 r.source_text ++ "...") ++ "\n") ∧
    (∀ i (r : SearchResult), ¬ pyLen r.source_text > 600 →
        renderBlock i r
          = "\nCode Snippet " ++ toString i ++ " (Relevance: "
              ++ formatPct1 r.similarity ++ ") from " ++ pyBasename r.file_path
              ++ ":\n" ++ r.source_text ++ "\n") := by
  refine ⟨fun k => rfl, ?_, ?_, ?_, ?_⟩
  · intro rs hne
    have htk : rs.take 8 ≠ [] := by
      simp [List.take_eq_nil_iff, hne]
    rw [format_search_context_arr_ne hne, format_search_context_arr_ne htk,
      List.take_take]
    simp
  · intro rs hne
    have hmapne : rs.map SearchResult.toJson ≠ [] := by
      simp [hne]
    rw [format_search_context_arr_ne hmapne, ← List.map_take,
      format_snippets_renderBlocks]
    rfl
  · intro i r hlen
    unfold renderBlock
    rw [if_pos hlen]
  · intro i r hlen
    unfold renderBlock
    rw [if_neg hlen]

/-- Witness for C5: a nine-element list exercises the first-8 cut; two
well-typed results with source texts of lengths 700 and 500 exercise the
truncation rule and the unmodified rendering; the empty list yields the
sentinel. -/
theorem format_search_context_spec_witness :
    format_search_context (.arr []) 8 = .ok "No search results provided." ∧
    format_search_context (.arr (List.replicate 9 (Json.str "r"))) 8
      = format_search_context (.arr ((List.replicate 9 (Json.str "r")).take 8)) 8 ∧
    format_search_context
        (.arr ([⟨"src/a/b.py", "function", Rat.divInt 85 100,
                  ⟨List.replicate 700 'x'⟩⟩,
                ⟨"c.py", "class", Rat.divInt 1 2,
                  ⟨List.replicate 500 'y'⟩⟩].map SearchResult.toJson)) 8
      = .ok (pyJoin "\n" (renderBlocks 1
          ([⟨"src/a/b.py", "function", Rat.divInt 85 100,
              ⟨List.replicate 700 'x'⟩⟩,
            ⟨"c.py", "class", Rat.divInt 1 2,
              ⟨List.replicate 500 'y'⟩⟩].take 8))) ∧
    renderBlock 1 ⟨"src/a/b.py", "function", Rat.divInt 85 100,
        ⟨List.replicate 700 'x'⟩⟩
      = "\nCode Snippet " ++ toString 1 ++ " (Relevance: "
          ++ formatPct1 (Rat.divInt 85 100) ++ ") from " ++ pyBasename "src/a/b.py"
          ++ ":\n" ++ (pyTake 600 ⟨List.replicate 700 'x'⟩ ++ "...") ++ "\n" ∧
    renderBlock 2 ⟨"c.py", "class", Rat.divInt 1 2, ⟨List.replicate 500 'y'⟩⟩
      = "\nCode Snippet " ++ toString 2 ++ " (Relevance: "
          ++ formatPct1 (Rat.divInt 1 2) ++ ") from " ++ pyBasename "c.py"
          ++ ":\n" ++ (⟨List.replicate 500 'y'⟩ : String) ++ "\n" :=
  ⟨format_search_context_spec.1 8,
   format_search_context_spec.2.1 (List.replicate 9 (Json.str "r")) (by simp),
   format_search_context_spec.2.2.1 _ (by simp),
   format_search_context_spec.2.2.2.1 1 _ (by
      rw [show pyLen (⟨List.replicate 700 'x'⟩ : String)
          = (List.replicate 700 'x').length from rfl, List.length_replicate]
      norm_num),
   format_search_context_spec.2.2.2.2 2 _ (by
      rw [show pyLen (⟨List.replicate 500 'y'⟩ : String)
          = (List.replicate 500 'y').length from rfl, List.length_replicate]
      norm_num)⟩
